import Mathlib

/-!
Verification of the real-time session layer of the antrikshGPT webapp
(`webapp/frontend/script.js`, class `AntrikshGPT`).

The class is shallowly embedded as a pure state type `Session` together with
one Lean function per method.  Browser-supplied facilities are made explicit:

* wall-clock reads (`Date.now()`, `new Date().toISOString()`) become a `now : Nat`
  argument; timestamps are modelled as naturals;
* the id generator used when `startToolCall` is called with a null id
  (`Date.now()` plus `Math.random()`) becomes an explicit fresh-string argument;
* the outcome of a `fetch` to `/api/chat` becomes an `HttpOutcome` argument,
  and `JSON.parse` of an inbound socket text becomes an `Option Frame` argument;
* the one DOM element the logic itself reads back (`#streaming-message`, whose
  accumulated text `finalizeMessage` turns into a history entry) is modelled
  as the `streaming : Option String` component of the session.
-/

namespace AntrikshGPT

/-- One conversation turn as pushed onto `this.chatHistory`
(`{role, content, timestamp}`); the ISO timestamp string is modelled as a
natural clock value. -/
structure ConversationTurn where
  role : String
  content : String
  timestamp : Nat
deriving Repr, DecidableEq

/-- One tracked tool invocation as stored in `this.activeToolCalls`
(`{id, name, description, startTime, status}`, with `endTime`, `duration` and
`result` added by `completeToolCall`; absent fields are `none`).  The status
is the literal JS string, `"active"` or `"completed"`. -/
structure ToolCall where
  id : String
  name : String
  description : String
  startTime : Nat
  status : String
  endTime : Option Nat := none
  duration : Option Int := none
  result : Option String := none
deriving Repr, DecidableEq

/-- A tool lifecycle event as carried by `tool_call_event` frames and by the
`tool_call_events` array of the HTTP fallback response. -/
structure ToolEvent where
  type : String
  tool_id : String
  tool_name : String
  description : Option String := none
  result : Option String := none
  error : Option String := none
deriving Repr, DecidableEq

/-- The mutable state of the `AntrikshGPT` class instance (rendering-only
fields such as `updateIntervals` are omitted; `ws.readyState === WebSocket.OPEN`
is modelled by the boolean `wsOpen`). -/
structure Session where
  chatHistory : List ConversationTurn
  isConnected : Bool
  wsOpen : Bool
  retryCount : Nat
  maxRetries : Nat
  activeToolCalls : List (String × ToolCall)
  toolCallHistory : List ToolCall
  streaming : Option String
deriving Repr, DecidableEq

/-- The constructor state: `chatHistory = []`, `isConnected = false`,
`retryCount = 0`, `maxRetries = 5`, empty tool maps, no socket, no
streaming element. -/
def connInit : Session :=
  { chatHistory := []
    isConnected := false
    wsOpen := false
    retryCount := 0
    maxRetries := 5
    activeToolCalls := []
    toolCallHistory := []
    streaming := none }

/-! ### JavaScript helpers -/

/-- JS `a.slice(-n)` on an array: the last `n` elements (the whole array when
shorter than `n`). -/
def jsSliceNeg {α : Type} (n : Nat) (l : List α) : List α :=
  l.drop (l.length - n)

/-- JS `x || d` for a possibly absent string `x`: `undefined`, `null` and the
empty string are falsy. -/
def jsOrStr (x : Option String) (d : String) : String :=
  match x with
  | some s => if s = "" then d else s
  | none => d

/-- JS `a || b` for two possibly absent strings (used for
`event.result || event.error`). -/
def jsOrOpt (a b : Option String) : Option String :=
  match a with
  | some s => if s = "" then b else some s
  | none => b

/-- JS `s.toLowerCase()`. -/
def jsToLower (s : String) : String := ⟨s.data.map Char.toLower⟩

/-- Whether `pat` occurs as a contiguous sublist of the character list. -/
def hasSubList (pat : List Char) : List Char → Bool
  | [] => pat.isEmpty
  | c :: t => pat.isPrefixOf (c :: t) || hasSubList pat t

/-- JS `s.includes(pat)`. -/
def strIncludes (s pat : String) : Bool := hasSubList pat.data s.data

/-- JS `s.trim()`: strip leading and trailing whitespace. -/
def jsTrim (s : String) : String :=
  ⟨((s.data.dropWhile Char.isWhitespace).reverse.dropWhile
      Char.isWhitespace).reverse⟩

/-! ### Association-list view of the `activeToolCalls` Map -/

/-- `Map.get` / `Map.has`: first binding of the key, if any. -/
def lookupTool (l : List (String × ToolCall)) (k : String) : Option ToolCall :=
  match l with
  | [] => none
  | (k2, v) :: rest => if k2 = k then some v else lookupTool rest k

/-- `Map.has`. -/
def hasTool (l : List (String × ToolCall)) (k : String) : Bool :=
  (lookupTool l k).isSome

/-- In-place mutation of the value object obtained from `Map.get`: every
binding of the key is replaced, insertion order untouched. -/
def updateTool (l : List (String × ToolCall)) (k : String) (v : ToolCall) :
    List (String × ToolCall) :=
  match l with
  | [] => []
  | (k2, v2) :: rest =>
      (if k2 = k then (k2, v) else (k2, v2)) :: updateTool rest k v

/-- `Map.delete`. -/
def removeTool (l : List (String × ToolCall)) (k : String) :
    List (String × ToolCall) :=
  l.filter (fun p => p.1 ≠ k)

/-- Number of bindings a key has (a JS Map always has at most one). -/
def countTool (l : List (String × ToolCall)) (k : String) : Nat :=
  (l.filter (fun p => p.1 = k)).length

/-! ### Chat history and streamed-reply reassembly -/

/-- Method `addMessageToChat(message, sender)` (history part; rendering of the
message element is a view concern).  Pushes the turn and, when the length
exceeds 50, truncates in one step to the last 40 via `slice(-40)`. -/
def addMessageToChat (s : Session) (message sender : String) (now : Nat) :
    Session :=
  let turn : ConversationTurn :=
    { role := if sender = "user" then "user" else "assistant"
      content := message
      timestamp := now }
  let h := s.chatHistory ++ [turn]
  let h := if h.length > 50 then jsSliceNeg 40 h else h
  { s with chatHistory := h }

/-- Method `appendMessageChunk(chunk)`: creates the `#streaming-message`
element if absent and appends the chunk to its content.  Modelled from the
spec for the part living outside `src/`: the element belongs to the DOM and
its content is written through the external `marked` renderer (loaded by the
webapp HTML, which is not under `src/`); per the spec the reassembler
accumulates the raw chunk text and rendering is a view concern, so the
element content is modelled as the accumulated chunk text. -/
def appendMessageChunk (s : Session) (chunk : String) : Session :=
  match s.streaming with
  | none => { s with streaming := some chunk }
  | some buf => { s with streaming := some (buf ++ chunk) }

/-- Method `finalizeMessage()`: when a streaming element exists, push its
text content as an assistant turn (note: a plain `push`, with no history-cap
truncation) and drop the element id (it stops being the streaming message);
when no streaming element exists, do nothing. -/
def finalizeMessage (s : Session) (now : Nat) : Session :=
  match s.streaming with
  | none => s
  | some buf =>
      { s with
        chatHistory :=
          s.chatHistory ++ [{ role := "assistant", content := buf, timestamp := now }]
        streaming := none }

/-! ### Tool-call tracker -/

/-- Method `startToolCall(toolName, description, id)`: the id defaults to a
generated fresh string when null or empty; a duplicate id is a no-op that
returns the id; otherwise a new `active` entry is inserted.  (The
`updateToolCallWidget` call is a view concern.) -/
def startToolCall (s : Session) (toolName description : String)
    (id : Option String) (fresh : String) (now : Nat) : Session × String :=
  let toolCallId := jsOrStr id fresh
  if hasTool s.activeToolCalls toolCallId then
    (s, toolCallId)
  else
    let tc : ToolCall :=
      { id := toolCallId, name := toolName, description := description
        startTime := now, status := "active" }
    ({ s with activeToolCalls := s.activeToolCalls ++ [(toolCallId, tc)] },
     toolCallId)

/-- The mutation `completeToolCall` performs on the entry it found: mark it
completed, stamp `endTime = Date.now()` and `duration = endTime - startTime`,
store the result. -/
def completedTool (tc : ToolCall) (result : Option String) (now : Nat) :
    ToolCall :=
  { tc with
    status := "completed"
    endTime := some now
    duration := some ((now : Int) - (tc.startTime : Int))
    result := result }

/-- Method `completeToolCall(toolCallId, result)` (synchronous part): when the
id is tracked and not yet completed, apply `completedTool` to the entry and
schedule the 2000 ms settle timer (the returned boolean); otherwise the call
is a no-op and schedules nothing. -/
def completeToolCall (s : Session) (toolCallId : String)
    (result : Option String) (now : Nat) : Session × Bool :=
  match lookupTool s.activeToolCalls toolCallId with
  | some tc =>
      if tc.status ≠ "completed" then
        ({ s with
            activeToolCalls :=
              updateTool s.activeToolCalls toolCallId (completedTool tc result now) },
         true)
      else (s, false)
  | none => (s, false)

/-- The settle-timer callback scheduled by `completeToolCall` (main branch,
where the item element is still in the DOM): move the entry from the active
map into `toolCallHistory` and cap the history at its last 10 entries.  (The
element-missing fallback branch of the source deletes the entry without
archiving it.) -/
def settleToolCall (s : Session) (toolCallId : String) : Session :=
  match lookupTool s.activeToolCalls toolCallId with
  | some tc =>
      let hist := s.toolCallHistory ++ [tc]
      let hist := if hist.length > 10 then jsSliceNeg 10 hist else hist
      { s with
        toolCallHistory := hist
        activeToolCalls := removeTool s.activeToolCalls toolCallId }
  | none => s

/-- Method `handleToolCallEvent(event)`: a null event is logged and dropped;
`tool_call_start` becomes `startToolCall`, `tool_call_complete` becomes
`completeToolCall` with `event.result || event.error`; other types are logged
and dropped. -/
def handleToolCallEvent (s : Session) (event : Option ToolEvent)
    (fresh : String) (now : Nat) : Session :=
  match event with
  | none => s
  | some evt =>
      if evt.type = "tool_call_start" then
        (startToolCall s evt.tool_name
          (jsOrStr evt.description ("Executing " ++ evt.tool_name))
          (some evt.tool_id) fresh now).1
      else if evt.type = "tool_call_complete" then
        (completeToolCall s evt.tool_id (jsOrOpt evt.result evt.error) now).1
      else s

/-! ### Frame dispatch and decode -/

/-- The closed set of inbound frame shapes dispatched by
`handleWebSocketMessage` (the `snapshot` payload is opaque to this layer;
`other` stands for any unhandled `data.type`). -/
inductive Frame where
  | welcome (message : String)
  | issUpdate (cached : Bool)
  | chatResponse (message : String)
  | chatResponseChunk (chunk : String)
  | chatResponseEnd
  | toolCallEvent (event : Option ToolEvent)
  | error (message : String)
  | other (type : String)
deriving Repr, DecidableEq

/-- Method `handleWebSocketMessage(data)`: dispatch by `data.type`.
`welcome`, `iss_update` and `error` frames only log, update widgets or show a
notification (view concerns, session state untouched); unknown types are
logged and dropped. -/
def handleWebSocketMessage (s : Session) (f : Frame) (fresh : String)
    (now : Nat) : Session :=
  match f with
  | .welcome _ => s
  | .issUpdate _ => s
  | .chatResponse m => addMessageToChat s m "assistant" now
  | .chatResponseChunk c => appendMessageChunk s c
  | .chatResponseEnd => finalizeMessage s now
  | .toolCallEvent e => handleToolCallEvent s e fresh now
  | .error _ => s
  | .other _ => s

/-- The `ws.onmessage` handler: `JSON.parse` of the raw text is modelled by
its outcome (`none` when the parse throws); the surrounding `try` block
logs the error and keeps the frame from having any effect. -/
def onRawMessage (s : Session) (parsed : Option Frame) (fresh : String)
    (now : Nat) : Session :=
  match parsed with
  | none => s
  | some f => handleWebSocketMessage s f fresh now

/-! ### Connection lifecycle -/

/-- The `ws.onopen` handler: `isConnected = true; retryCount = 0`. -/
def handleOpen (s : Session) : Session :=
  { s with isConnected := true, wsOpen := true, retryCount := 0 }

/-- Method `attemptReconnect()`: below `maxRetries`, increment the retry
count and schedule a reconnect after `min(1000 * 2 ** retryCount, 30000)` ms
(the returned `Option Nat` is the scheduled delay); otherwise schedule
nothing and show the terminal connection-lost notification (the returned
boolean). -/
def attemptReconnect (s : Session) : Session × Option Nat × Bool :=
  if s.retryCount < s.maxRetries then
    let rc := s.retryCount + 1
    ({ s with retryCount := rc }, some (min (1000 * 2 ^ rc) 30000), false)
  else
    (s, none, true)

/-- The `ws.onclose` handler: `isConnected = false` then `attemptReconnect()`. -/
def handleClose (s : Session) : Session × Option Nat × Bool :=
  attemptReconnect { s with isConnected := false, wsOpen := false }

/-- One outage in which every connection open fails: each failed open fires
`onclose`; while a reconnect is scheduled the next open also fails, and the
run stops at the terminal notification.  Returns the scheduled delays in
order and how many times the terminal notification fired; the fuel bounds
the run length. -/
def outageTrace : Nat → Session → List Nat × Nat
  | 0, _ => ([], 0)
  | fuel + 1, s =>
      match handleClose s with
      | (s2, some d, _) =>
          let r := outageTrace fuel s2
          (d :: r.1, r.2)
      | (_, none, _) => ([], 1)

/-! ### Outbound sends and the HTTP fallback -/

/-- What `sendMessage` hands to the transport: the socket `chat` frame or the
body of the `/api/chat` POST, each carrying the trimmed message and
`chatHistory.slice(-10)`. -/
inductive Outbound where
  | wsChat (message : String) (chat_history : List ConversationTurn)
  | httpChat (message : String) (chat_history : List ConversationTurn)
deriving Repr, DecidableEq

/-- Outcome of the `fetch('/api/chat')` call: a 2xx response with its parsed
body, a non-2xx response, or a rejected fetch. -/
inductive HttpOutcome where
  | ok (response : String) (tool_call_events : Option (List ToolEvent))
  | badStatus (status : Nat) (statusText : String)
  | networkError (message : String)
deriving Repr, DecidableEq

/-- Method `simulateToolCallsFromMessage(message)` (synchronous part): on
keyword matches, start demo tool calls with generated ids drawn from the
fresh-id oracle.  The random-delay completions it schedules are timer
callbacks outside this synchronous step. -/
def simulateToolCallsFromMessage (s : Session) (message : String)
    (gen : Nat → String) (now : Nat) : Session :=
  let lower := jsToLower message
  let s :=
    if strIncludes lower "search" || strIncludes lower "find" then
      (startToolCall s "codebase_search"
        "Searching through codebase for relevant information" none (gen 0) now).1
    else s
  let s :=
    if strIncludes lower "file" || strIncludes lower "read" then
      (startToolCall s "read_file" "Reading file contents" none (gen 1) now).1
    else s
  let s :=
    if strIncludes lower "web" || strIncludes lower "internet"
        || strIncludes lower "online" then
      (startToolCall s "web_search" "Searching the web for information" none
        (gen 2) now).1
    else s
  s

/-- The fallback-branch replay of `data.tool_call_events`: events without a
type are skipped; starts and completes go through the same
`startToolCall` / `completeToolCall` transitions as live channel events. -/
def replayToolEvents (s : Session) (evs : List ToolEvent) (gen : Nat → String)
    (now : Nat) : Session :=
  evs.enum.foldl
    (fun acc p =>
      let evt := p.2
      if evt.type = "" then acc
      else if evt.type = "tool_call_start" then
        (startToolCall acc evt.tool_name
          (jsOrStr evt.description ("Executing " ++ evt.tool_name))
          (some evt.tool_id) (gen (3 + p.1)) now).1
      else if evt.type = "tool_call_complete" then
        (completeToolCall acc evt.tool_id (jsOrOpt evt.result evt.error) now).1
      else acc)
    s

/-- The apology turn pushed by the `catch` block of `sendMessage`. -/
def apologyText : String :=
  "Sorry, I encountered an error processing your request. Please try again."

/-- Whether the `fetch` outcome is a transport failure (non-2xx response or
rejected fetch). -/
def HttpOutcome.isFailure : HttpOutcome → Bool
  | .ok _ _ => false
  | .badStatus _ _ => true
  | .networkError _ => true

/-- Body of the `try` block of `sendMessage` on the fallback path: a non-2xx
response throws `HTTP status: statusText` and a rejected fetch propagates its
own error; a 2xx response appends the assistant reply and replays the tool
events when `tool_call_events` is an array. -/
def fallbackResult (s2 : Session) (http : HttpOutcome) (gen : Nat → String)
    (now : Nat) : Except String Session :=
  match http with
  | .ok resp events =>
      let s3 := addMessageToChat s2 resp "assistant" now
      .ok (match events with
           | some evs => replayToolEvents s3 evs gen now
           | none => s3)
  | .badStatus st stText => .error ("HTTP " ++ toString st ++ ": " ++ stText)
  | .networkError m => .error m

/-- Method `sendMessage()`: trim the input and return doing nothing when it
is empty; otherwise append the user turn, simulate demo tool calls when not
connected, then either send the socket `chat` frame or run the HTTP
fallback, whose failures the `catch` block absorbs into an apology assistant
turn.  The second component records what, if anything, was handed to a
transport. -/
def sendMessage (s : Session) (rawInput : String) (http : HttpOutcome)
    (gen : Nat → String) (now : Nat) : Session × Option Outbound :=
  let message := jsTrim rawInput
  if message = "" then (s, none)
  else
    let s1 := addMessageToChat s message "user" now
    let connected := s1.isConnected && s1.wsOpen
    let s2 :=
      if !connected then simulateToolCallsFromMessage s1 message gen now else s1
    if connected then
      (s2, some (.wsChat message (jsSliceNeg 10 s2.chatHistory)))
    else
      let attempt := Outbound.httpChat message (jsSliceNeg 10 s2.chatHistory)
      match fallbackResult s2 http gen now with
      | .ok s3 => (s3, some attempt)
      | .error _ =>
          (addMessageToChat s2 apologyText "assistant" now, some attempt)

/-! ### Helper lemmas -/

theorem lookupTool_append_of_none (l : List (String × ToolCall)) (k : String)
    (v : ToolCall) (h : lookupTool l k = none) :
    lookupTool (l ++ [(k, v)]) k = some v := by
  induction l with
  | nil => simp [lookupTool]
  | cons p rest ih =>
      obtain ⟨k2, v2⟩ := p
      by_cases hk : k2 = k
      · simp [lookupTool, hk] at h
      · simp only [List.cons_append, lookupTool, if_neg hk] at h ⊢
        exact ih h

theorem countTool_eq_zero_of_none (l : List (String × ToolCall)) (k : String)
    (h : lookupTool l k = none) : countTool l k = 0 := by
  induction l with
  | nil => rfl
  | cons p rest ih =>
      obtain ⟨k2, v2⟩ := p
      by_cases hk : k2 = k
      · simp [lookupTool, hk] at h
      · simp only [lookupTool, if_neg hk] at h
        simp [countTool, List.filter_cons, hk] at ih ⊢
        exact ih h

theorem countTool_append_self (l : List (String × ToolCall)) (k : String)
    (v : ToolCall) : countTool (l ++ [(k, v)]) k = countTool l k + 1 := by
  simp [countTool, List.filter_append, List.filter_cons]

theorem lookupTool_updateTool_self (l : List (String × ToolCall)) (k : String)
    (v tc : ToolCall) (h : lookupTool l k = some tc) :
    lookupTool (updateTool l k v) k = some v := by
  induction l with
  | nil => simp [lookupTool] at h
  | cons p rest ih =>
      obtain ⟨k2, v2⟩ := p
      simp only [updateTool]
      by_cases hk : k2 = k
      · rw [if_pos hk]
        simp [lookupTool, hk]
      · rw [if_neg hk]
        simp only [lookupTool, if_neg hk] at h ⊢
        exact ih h

@[simp] theorem addMessageToChat_isConnected (s : Session) (m r : String)
    (now : Nat) : (addMessageToChat s m r now).isConnected = s.isConnected := rfl

@[simp] theorem addMessageToChat_wsOpen (s : Session) (m r : String)
    (now : Nat) : (addMessageToChat s m r now).wsOpen = s.wsOpen := rfl

@[simp] theorem addMessageToChat_activeToolCalls (s : Session) (m r : String)
    (now : Nat) :
    (addMessageToChat s m r now).activeToolCalls = s.activeToolCalls := rfl

@[simp] theorem addMessageToChat_streaming (s : Session) (m r : String)
    (now : Nat) : (addMessageToChat s m r now).streaming = s.streaming := rfl

/-! ### Claim theorems -/

/-- C1: Reconnection backoff law.  From a session with retry count 0, an
outage of consecutive failed opens schedules the n-th reconnect attempt after
exactly min(1000 * 2 ^ n, 30000) ms — so 2 s, 4 s, 8 s, 16 s, 30 s — no 6th
attempt is scheduled, the terminal connection-lost notification fires exactly
once, and a successful open resets the retry count to 0. -/
theorem reconnect_backoff_law :
    outageTrace 6 connInit = ([2000, 4000, 8000, 16000, 30000], 1)
    ∧ (∀ k : Nat,
        outageTrace (k + 6) connInit = ([2000, 4000, 8000, 16000, 30000], 1))
    ∧ (∀ s : Session, s.maxRetries = 5 → s.retryCount < 5 →
        (handleClose s).2.1 = some (min (1000 * 2 ^ (s.retryCount + 1)) 30000)
        ∧ (handleClose s).1.retryCount = s.retryCount + 1
        ∧ (handleClose s).2.2 = false)
    ∧ (∀ s : Session, s.maxRetries = 5 → 5 ≤ s.retryCount →
        (handleClose s).2.1 = none ∧ (handleClose s).2.2 = true)
    ∧ (∀ s : Session, (handleOpen s).retryCount = 0) := by
  refine ⟨by decide, fun k => rfl, ?_, ?_, fun s => rfl⟩
  · intro s h5 hlt
    simp [handleClose, attemptReconnect, h5, hlt]
  · intro s h5 hge
    simp [handleClose, attemptReconnect, h5, Nat.not_lt.mpr hge]

theorem reconnect_backoff_law_witness :
    ((5:Nat) = 5 ∧ (2:Nat) < 5) ∧
      (handleClose { connInit with retryCount := 2 }).2.1 = some 8000 := by
  refine ⟨⟨rfl, by decide⟩, ?_⟩
  have h := (reconnect_backoff_law.2.2.1 { connInit with retryCount := 2 }
    rfl (by decide)).1
  simpa using h

/-- C2 counterexample: a streamed assistant turn finalized onto a history of
50 turns yields a history of 51 turns — `finalizeMessage` appends without
the 50-cap truncation, so the claimed invariant fails for finalized streamed
turns. -/
theorem history_cap_finalize_cex :
    50 < ((finalizeMessage
      { connInit with
          chatHistory :=
            List.replicate 50 { role := "user", content := "m", timestamp := 0 }
          streaming := some "x" } 1).chatHistory).length := by
  decide

/-- C2 amended: appends made through `addMessageToChat` (user turns and
non-streamed assistant turns) keep the history at no more than 50 turns, and
when such an append would exceed 50 the buffer is truncated in one step to
exactly the most recent 40 turns; a finalized streamed assistant turn,
however, is pushed without truncation and can exceed the cap. -/
theorem history_cap_amended :
    (∀ (s : Session) (m r : String) (now : Nat),
        (addMessageToChat s m r now).chatHistory.length ≤ 50)
    ∧ (∀ (s : Session) (m r : String) (now : Nat),
        50 < s.chatHistory.length + 1 →
        (addMessageToChat s m r now).chatHistory
            = jsSliceNeg 40 (s.chatHistory ++
                [{ role := if r = "user" then "user" else "assistant",
                   content := m, timestamp := now }])
        ∧ (addMessageToChat s m r now).chatHistory.length = 40)
    ∧ (∀ (s : Session) (buf : String) (now : Nat), s.streaming = some buf →
        (finalizeMessage s now).chatHistory.length
          = s.chatHistory.length + 1) := by
  have key1 : ∀ (l : List ConversationTurn) (t : ConversationTurn),
      (if (l ++ [t]).length > 50 then jsSliceNeg 40 (l ++ [t]) else l ++ [t]).length
        ≤ 50 := by
    intro l t
    by_cases h : (l ++ [t]).length > 50
    · rw [if_pos h]
      simp only [jsSliceNeg, List.length_drop]
      omega
    · rw [if_neg h]
      omega
  have key2 : ∀ (l : List ConversationTurn) (t : ConversationTurn),
      50 < l.length + 1 →
      (if (l ++ [t]).length > 50 then jsSliceNeg 40 (l ++ [t]) else l ++ [t])
          = jsSliceNeg 40 (l ++ [t])
      ∧ (if (l ++ [t]).length > 50 then jsSliceNeg 40 (l ++ [t]) else l ++ [t]).length
          = 40 := by
    intro l t hbig
    have hc : (l ++ [t]).length > 50 := by
      simp only [List.length_append, List.length_cons, List.length_nil]
      omega
    rw [if_pos hc]
    refine ⟨rfl, ?_⟩
    simp only [jsSliceNeg, List.length_drop, List.length_append,
      List.length_cons, List.length_nil]
    omega
  refine ⟨?_, ?_, ?_⟩
  · intro s m r now
    exact key1 s.chatHistory _
  · intro s m r now hbig
    exact key2 s.chatHistory _ hbig
  · intro s buf now h
    simp [finalizeMessage, h]

theorem history_cap_amended_witness :
    50 < (List.replicate 50
        { role := "user", content := "m", timestamp := 0 : ConversationTurn }).length + 1
    ∧ ((addMessageToChat
        { connInit with
            chatHistory := List.replicate 50
              { role := "user", content := "m", timestamp := 0 } }
        "x" "user" 1).chatHistory).length = 40 := by
  refine ⟨by simp, ?_⟩
  exact (history_cap_amended.2.1
    { connInit with
        chatHistory := List.replicate 50
          { role := "user", content := "m", timestamp := 0 } }
    "x" "user" 1 (by simp)).2

/-- C3: Tool-call start idempotence.  Starting an id that is not yet tracked
creates exactly one active entry carrying the first call's name and
description; a second start with the same id is a no-op that returns the
existing id and retains the first call's data. -/
theorem start_idempotent :
    ∀ (s : Session) (id name1 desc1 name2 desc2 f1 f2 : String) (n1 n2 : Nat),
      id ≠ "" →
      lookupTool s.activeToolCalls id = none →
      (startToolCall s name1 desc1 (some id) f1 n1).2 = id
      ∧ lookupTool (startToolCall s name1 desc1 (some id) f1 n1).1.activeToolCalls id
          = some { id := id, name := name1, description := desc1,
                   startTime := n1, status := "active" }
      ∧ countTool (startToolCall s name1 desc1 (some id) f1 n1).1.activeToolCalls id
          = 1
      ∧ startToolCall (startToolCall s name1 desc1 (some id) f1 n1).1
            name2 desc2 (some id) f2 n2
          = ((startToolCall s name1 desc1 (some id) f1 n1).1, id) := by
  intro s id name1 desc1 name2 desc2 f1 f2 n1 n2 hid h0
  have hor : ∀ f : String, jsOrStr (some id) f = id := by
    intro f
    simp [jsOrStr, hid]
  have h1 : startToolCall s name1 desc1 (some id) f1 n1
      = ({ s with activeToolCalls := s.activeToolCalls ++
            [(id, { id := id, name := name1, description := desc1,
                    startTime := n1, status := "active" })] }, id) := by
    simp [startToolCall, hor, hasTool, h0]
  rw [h1]
  have hl := lookupTool_append_of_none s.activeToolCalls id
    { id := id, name := name1, description := desc1,
      startTime := n1, status := "active" } h0
  refine ⟨rfl, hl, ?_, ?_⟩
  · rw [countTool_append_self, countTool_eq_zero_of_none _ _ h0]
  · simp [startToolCall, hor, hasTool, hl]

theorem start_idempotent_witness :
    ("a" ≠ "" ∧ lookupTool connInit.activeToolCalls "a" = none)
    ∧ startToolCall (startToolCall connInit "fetch" "Fetching" (some "a") "g" 1).1
          "other" "Other" (some "a") "g" 2
        = ((startToolCall connInit "fetch" "Fetching" (some "a") "g" 1).1, "a") := by
  refine ⟨⟨by decide, rfl⟩, ?_⟩
  exact (start_idempotent connInit "a" "fetch" "Fetching" "other" "Other"
    "g" "g" 1 2 (by decide) rfl).2.2.2

/-- C4: Tool-call complete safety.  Completing an unknown or already
completed id is a no-op that changes nothing and schedules nothing;
completing an active id marks it completed with end time `now`, duration
`now - startTime` (nonnegative when the clock has not gone backwards) and the
stored result, and any later duplicate complete is a no-op with no duration
recompute and no second settle timer. -/
theorem complete_safety :
    ∀ (s : Session) (id : String) (res res2 : Option String) (now now2 : Nat),
      (lookupTool s.activeToolCalls id = none →
        completeToolCall s id res now = (s, false))
      ∧ (∀ tc : ToolCall, lookupTool s.activeToolCalls id = some tc →
          tc.status = "completed" →
          completeToolCall s id res now = (s, false))
      ∧ (∀ tc : ToolCall, lookupTool s.activeToolCalls id = some tc →
          tc.status ≠ "completed" →
          lookupTool (completeToolCall s id res now).1.activeToolCalls id
              = some (completedTool tc res now)
          ∧ (completedTool tc res now).status = "completed"
          ∧ (completedTool tc res now).endTime = some now
          ∧ (completedTool tc res now).duration
              = some ((now : Int) - (tc.startTime : Int))
          ∧ (completedTool tc res now).result = res
          ∧ (completeToolCall s id res now).2 = true
          ∧ (tc.startTime ≤ now →
              (0 : Int) ≤ (now : Int) - (tc.startTime : Int))
          ∧ completeToolCall (completeToolCall s id res now).1 id res2 now2
              = ((completeToolCall s id res now).1, false)) := by
  intro s id res res2 now now2
  refine ⟨?_, ?_, ?_⟩
  · intro h
    simp [completeToolCall, h]
  · intro tc h hc
    simp [completeToolCall, h, hc]
  · intro tc h hc
    have hstep : completeToolCall s id res now
        = ({ s with
              activeToolCalls :=
                updateTool s.activeToolCalls id (completedTool tc res now) },
           true) := by
      simp [completeToolCall, h, hc]
    rw [hstep]
    have hl2 := lookupTool_updateTool_self s.activeToolCalls id
      (completedTool tc res now) tc h
    refine ⟨hl2, rfl, rfl, rfl, rfl, rfl, ?_, ?_⟩
    · intro hle
      omega
    · simp only [completeToolCall, hl2]
      simp [completedTool]

theorem complete_safety_witness :
    lookupTool connInit.activeToolCalls "nonexistent" = none
    ∧ completeToolCall connInit "nonexistent" (some "r") 3 = (connInit, false) :=
  ⟨rfl, (complete_safety connInit "nonexistent" (some "r") none 3 4).1 rfl⟩

/-- C5: Stream reassembly.  With no active streaming message, the chunks
"Hello " and "world" followed by a finalize append exactly one assistant turn
with content "Hello world" and discard the streaming message; in general a
finalize with an active streaming message appends one assistant turn whose
content is the accumulated buffer and discards it. -/
theorem stream_reassembly :
    ∀ (s : Session) (now : Nat),
      (s.streaming = none →
        (appendMessageChunk (appendMessageChunk s "Hello ") "world").streaming
            = some "Hello world"
        ∧ (finalizeMessage
              (appendMessageChunk (appendMessageChunk s "Hello ") "world")
              now).chatHistory
            = s.chatHistory ++
                [{ role := "assistant", content := "Hello world", timestamp := now }]
        ∧ (finalizeMessage
              (appendMessageChunk (appendMessageChunk s "Hello ") "world")
              now).streaming = none)
      ∧ (∀ buf : String, s.streaming = some buf →
          (finalizeMessage s now).chatHistory
              = s.chatHistory ++
                  [{ role := "assistant", content := buf, timestamp := now }]
          ∧ (finalizeMessage s now).streaming = none) := by
  intro s now
  constructor
  · intro h
    refine ⟨?_, ?_, ?_⟩ <;>
      simp [appendMessageChunk, finalizeMessage, h]
  · intro buf h
    constructor <;> simp [finalizeMessage, h]

theorem stream_reassembly_witness :
    connInit.streaming = none
    ∧ (finalizeMessage
          (appendMessageChunk (appendMessageChunk connInit "Hello ") "world")
          5).chatHistory
        = [{ role := "assistant", content := "Hello world", timestamp := 5 }] := by
  refine ⟨rfl, ?_⟩
  have h := ((stream_reassembly connInit 5).1 rfl).2.1
  simpa using h

/-- C6: Duplicate reply_end safety.  A finalize with no active streaming
message leaves the session unchanged, and finalize is idempotent, so a second
reply_end immediately after a finalize has no effect. -/
theorem duplicate_reply_end_noop :
    ∀ (s : Session) (n1 n2 : Nat),
      (s.streaming = none → finalizeMessage s n1 = s)
      ∧ finalizeMessage (finalizeMessage s n1) n2 = finalizeMessage s n1 := by
  intro s n1 n2
  constructor
  · intro h
    simp [finalizeMessage, h]
  · cases hs : s.streaming with
    | none => simp [finalizeMessage, hs]
    | some buf => simp [finalizeMessage, hs]

theorem duplicate_reply_end_noop_witness :
    connInit.streaming = none ∧ finalizeMessage connInit 1 = connInit :=
  ⟨rfl, (duplicate_reply_end_noop connInit 1 2).1 rfl⟩

/-- C7: Fallback failure absorption.  When the connection is not open and the
fallback transport fails (rejected fetch or non-2xx response), `sendMessage`
returns normally — the failure is an `error` of the inner try body that the
catch absorbs — appending a synthetic apology assistant turn after the user
turn, leaving the tracker exactly as the pre-send simulation left it (no tool
events replayed), with the HTTP request the only transport attempt. -/
theorem fallback_failure_absorbed :
    ∀ (s : Session) (raw : String) (http : HttpOutcome) (gen : Nat → String)
      (now : Nat),
      (jsTrim raw) ≠ "" →
      (s.isConnected && s.wsOpen) = false →
      http.isFailure = true →
      (sendMessage s raw http gen now).1
          = addMessageToChat
              (simulateToolCallsFromMessage
                (addMessageToChat s (jsTrim raw) "user" now) (jsTrim raw) gen now)
              apologyText "assistant" now
      ∧ (sendMessage s raw http gen now).1.activeToolCalls
          = (simulateToolCallsFromMessage
              (addMessageToChat s (jsTrim raw) "user" now) (jsTrim raw) gen now).activeToolCalls
      ∧ (sendMessage s raw http gen now).2
          = some (.httpChat (jsTrim raw) (jsSliceNeg 10
              (simulateToolCallsFromMessage
                (addMessageToChat s (jsTrim raw) "user" now) (jsTrim raw) gen now).chatHistory))
      ∧ (∃ e, fallbackResult
            (simulateToolCallsFromMessage
              (addMessageToChat s (jsTrim raw) "user" now) (jsTrim raw) gen now)
            http gen now = .error e) := by
  intro s raw http gen now htrim hconn hfail
  cases http with
  | ok resp evs => simp [HttpOutcome.isFailure] at hfail
  | badStatus st stText =>
      refine ⟨?_, ?_, ?_, ⟨"HTTP " ++ toString st ++ ": " ++ stText, rfl⟩⟩ <;>
        simp [sendMessage, htrim, hconn, fallbackResult]
  | networkError m =>
      refine ⟨?_, ?_, ?_, ⟨m, rfl⟩⟩ <;>
        simp [sendMessage, htrim, hconn, fallbackResult]

theorem fallback_failure_absorbed_witness :
    ((jsTrim "Hi there") ≠ "" ∧ (connInit.isConnected && connInit.wsOpen) = false
      ∧ (HttpOutcome.networkError "down").isFailure = true)
    ∧ (sendMessage connInit "Hi there" (.networkError "down") (fun _ => "g") 4).1
        = addMessageToChat
            (simulateToolCallsFromMessage
              (addMessageToChat connInit (jsTrim "Hi there") "user" 4)
              (jsTrim "Hi there") (fun _ => "g") 4)
            apologyText "assistant" 4 := by
  refine ⟨⟨by decide, rfl, rfl⟩, ?_⟩
  exact (fallback_failure_absorbed connInit "Hi there" (.networkError "down")
    (fun _ => "g") 4 (by decide) rfl rfl).1

/-- The two fallback tool events of the C8 scenario. -/
def marsStartEvent : ToolEvent :=
  { type := "tool_call_start", tool_id := "t1", tool_name := "get_mars_weather" }

/-- Completion of the C8 scenario tool call with result "-60C". -/
def marsCompleteEvent : ToolEvent :=
  { type := "tool_call_complete", tool_id := "t1",
    tool_name := "get_mars_weather", result := some "-60C" }

/-- C8: Fallback tool-event replay.  A successful fallback response
"Mars is cold." with a start and a complete event for t1 yields an assistant
turn "Mars is cold." in the history and a completed ToolCall t1 whose stored
result is "-60C"; replaying those events gives the same tracker contents as
delivering them as live channel tool_call_event frames. -/
theorem fallback_tool_event_replay :
    ((sendMessage connInit "Tell me about Mars"
        (.ok "Mars is cold." (some [marsStartEvent, marsCompleteEvent]))
        (fun _ => "g") 7).1.chatHistory
      = [{ role := "user", content := "Tell me about Mars", timestamp := 7 },
         { role := "assistant", content := "Mars is cold.", timestamp := 7 }])
    ∧ (lookupTool (sendMessage connInit "Tell me about Mars"
          (.ok "Mars is cold." (some [marsStartEvent, marsCompleteEvent]))
          (fun _ => "g") 7).1.activeToolCalls "t1"
        = some { id := "t1", name := "get_mars_weather",
                 description := "Executing get_mars_weather", startTime := 7,
                 status := "completed", endTime := some 7, duration := some 0,
                 result := some "-60C" })
    ∧ ((sendMessage connInit "Tell me about Mars"
          (.ok "Mars is cold." (some [marsStartEvent, marsCompleteEvent]))
          (fun _ => "g") 7).1.activeToolCalls
        = (handleWebSocketMessage
            (handleWebSocketMessage connInit (.toolCallEvent (some marsStartEvent)) "g" 7)
            (.toolCallEvent (some marsCompleteEvent)) "g" 7).activeToolCalls) := by
  refine ⟨?_, ?_, ?_⟩ <;> rfl

/-- C9: Decode errors are non-fatal.  When `JSON.parse` of the raw inbound
text fails, the onmessage handler logs and discards the frame and the whole
session state is unchanged. -/
theorem decode_error_nonfatal :
    ∀ (s : Session) (fresh : String) (now : Nat),
      onRawMessage s none fresh now = s :=
  fun _ _ _ => rfl

/-- C10: Empty-input send is a no-op.  When the input text trims to the
empty string, `sendMessage` returns before appending a user turn, sending on
the channel, or issuing a fallback request; the session is unchanged. -/
theorem empty_input_noop :
    ∀ (s : Session) (raw : String) (http : HttpOutcome) (gen : Nat → String)
      (now : Nat),
      (jsTrim raw) = "" →
      sendMessage s raw http gen now = (s, none) := by
  intro s raw http gen now h
  simp [sendMessage, h]

theorem empty_input_noop_witness :
    (jsTrim "   ") = ""
    ∧ sendMessage connInit "   " (.networkError "down") (fun _ => "g") 3
        = (connInit, none) :=
  ⟨by decide,
   empty_input_noop connInit "   " (.networkError "down") (fun _ => "g") 3
     (by decide)⟩

end AntrikshGPT
